import Mathlib

/-!
Verification development for the maibot message-filter plugin (src/plugin.py).

The plugin's rule engine `_apply_filter_rules_to_text`, the LLM arbitrator
`_check_reply_with_llm`, the segment helpers `_remove_text_segments` and
`_replace_first_text_segment`, and the pre-send handler
`PreSendMessageFilterEventHandler.execute` are embedded as executable Lean
functions.  External capabilities (the Python `re` module, `random.random()`,
the model registry, the message-history API and the generation API) are
parameters: an abstract `RegexEngine`, a draw stream `ℕ → ℚ`, and an `LLMEnv`.
Fallible Python operations are mirrored with `Except`: a regex operation may
fail with `re.error` (caught by the engine), and `str.format` on the prompt
template may raise (not caught anywhere in the plugin).
-/

/-- A message segment: `Seg` objects from `maim_message` carry a `type`
discriminator string (`"text"`, `"image"`, `"reply"`, ...) and a `data`
payload; only the textual payload matters to the plugin, so `data` is a
string. -/
structure Seg where
  type : String
  data : String
deriving DecidableEq, Repr

/-- One filter rule, as read from the config dicts.  `pattern` is
`rule.get("pattern")` (absent key gives `none`); the other fields carry the
`dict.get` defaults the engine uses (`action` defaults to the block action,
`replacement` to `""`, `probability` to `1.0`).  `enabled` is the raw
`rule.get("enabled")` select value (the loader keeps a rule only when it
equals `"启用"`).  Probabilities are modelled as rationals. -/
structure Rule where
  enabled : Option String := none
  pattern : Option String := none
  action : String := "拦截整条消息"
  replacement : String := ""
  probability : ℚ := 1
  description : String := ""
deriving DecidableEq, Repr

/-- Abstract interface of the Python `re` module as the engine uses it.
`search p t` is `re.search(p, t) is not None`; `sub p r t` is
`re.sub(p, r, t)`.  Either call may fail (`re.error` on an invalid pattern,
or an invalid group reference in the replacement); failure is `.error ()`. -/
structure RegexEngine where
  search : String → String → Except Unit Bool
  sub : String → String → String → Except Unit String

/-- Abstract interface of the external capabilities the arbitrator calls:
`availableModels` is `llm_api.get_available_models().get(name)` (the opaque
model configuration is a string); `recentMessagesText` is the composition of
`message_api.get_recent_messages(chat_id, 1.0, context_count)` with
`build_readable_messages_to_str`; `generate prompt modelConfig` is the
`(success, response)` part of `llm_api.generate_with_model`. -/
structure LLMEnv where
  availableModels : String → Option String
  recentMessagesText : String → ℕ → String
  generate : String → String → Bool × String

/-- The `llm_check_settings` dict handed to the engine, with the `dict.get`
defaults of `_apply_filter_rules_to_text` applied. -/
structure LLMSettings where
  prompt : String := ""
  model : String := "utils"
  contextCount : ℕ := 10
deriving DecidableEq, Repr

/-- The opening-brace character, `Char.ofNat 123`. -/
def lbrace : Char := Char.ofNat 123

/-- The closing-brace character, `Char.ofNat 125`. -/
def rbrace : Char := Char.ofNat 125

/-- Scanner state for the `str.format` model: `normal` text, just saw an
opening brace, just saw a closing brace, or inside a replacement field with
the accumulated (reversed) field name. -/
inductive FmtMode where
  | normal : FmtMode
  | sawL : FmtMode
  | sawR : FmtMode
  | field : List Char → FmtMode
deriving DecidableEq, Repr

/-- Model of Python `template.format(messages=msgs, reply_text=reply)` as a
character scanner.  Doubled braces emit a literal brace; a replacement field
must be exactly `messages` or `reply_text` (conversion or format-spec suffixes
are conservatively rejected, so every `.ok` of this model is a template on
which Python raises no exception); a lone closing brace, an unterminated
field, or any other field name is an error (Python raises `ValueError`,
`IndexError` or `KeyError` there). -/
def pyFormatAux (msgs reply : String) : FmtMode → List Char → Except Unit (List Char)
  | .normal, [] => .ok []
  | .normal, c :: rest =>
    if c = lbrace then pyFormatAux msgs reply .sawL rest
    else if c = rbrace then pyFormatAux msgs reply .sawR rest
    else (pyFormatAux msgs reply .normal rest).map (fun l => c :: l)
  | .sawL, [] => .error ()
  | .sawL, c :: rest =>
    if c = lbrace then (pyFormatAux msgs reply .normal rest).map (fun l => lbrace :: l)
    else if c = rbrace then .error ()
    else pyFormatAux msgs reply (.field [c]) rest
  | .sawR, [] => .error ()
  | .sawR, c :: rest =>
    if c = rbrace then (pyFormatAux msgs reply .normal rest).map (fun l => rbrace :: l)
    else .error ()
  | .field _, [] => .error ()
  | .field acc, c :: rest =>
    if c = rbrace then
      if String.mk acc.reverse = "messages" then
        (pyFormatAux msgs reply .normal rest).map (fun l => msgs.toList ++ l)
      else if String.mk acc.reverse = "reply_text" then
        (pyFormatAux msgs reply .normal rest).map (fun l => reply.toList ++ l)
      else .error ()
    else pyFormatAux msgs reply (.field (c :: acc)) rest

/-- Model of `prompt.format(messages=messages_text, reply_text=reply_text)`
at line 150 of src/plugin.py; `.error ()` means the Python call raises. -/
def pyFormat (tmpl msgs reply : String) : Except Unit String :=
  (pyFormatAux msgs reply .normal tmpl.toList).map String.mk

/-- Python whitespace test over the characters `str.strip()` removes (the
ASCII ones; the claims only exercise these). -/
def isPySpace (c : Char) : Bool :=
  c = ' ' || c = '\t' || c = '\n' || c = '\r' || c = '\x0b' || c = '\x0c'

/-- Model of Python `s.strip()`: drop whitespace from both ends. -/
def pyStrip (s : String) : String :=
  String.mk (((s.toList.dropWhile isPySpace).reverse.dropWhile isPySpace).reverse)

/-- Embedding of `_check_reply_with_llm` (src/plugin.py lines 127-166).
Returns `(should_send, reason)`; `.error ()` is an uncaught Python exception
(the `prompt.format` call is the one fallible step with no handler). -/
def checkReplyWithLLM (env : LLMEnv) (chatId replyText prompt modelName : String)
    (contextCount : ℕ) : Except Unit (Bool × String) :=
  if chatId = "" then .ok (true, "无法获取上下文")
  else if prompt = "" then .ok (true, "LLM判断提示词模板为空")
  else
    match env.availableModels modelName with
    | none => .ok (true, "指定的LLM模型 " ++ modelName ++ " 不存在")
    | some modelConfig =>
      let messagesText := env.recentMessagesText chatId contextCount
      match pyFormat prompt messagesText replyText with
      | .error e => .error e
      | .ok finalPrompt =>
        let res := env.generate finalPrompt modelConfig
        if res.1 = false then .ok (true, "LLM调用失败: " ++ res.2)
        else
          let response := pyStrip res.2
          if response ≠ "发送" then .ok (false, response)
          else .ok (true, response)

/-- Mutable state of the rule-sweep loop in `_apply_filter_rules_to_text`:
`cur` is `current_text`, `modified` the modified flag, `llmNeeded` the
`llm_check_needed` flag, `hitPattern` the recorded `hit_pattern`, and `k`
the number of `random.random()` draws consumed so far (the next draw is
`rng k`). -/
structure LoopState where
  cur : String
  modified : Bool
  llmNeeded : Bool
  hitPattern : Option String
  k : ℕ
deriving DecidableEq, Repr

/-- Outcome of the rule sweep: an early `return True, modified, current_text,
pattern` from a block rule, or the final loop state. -/
inductive LoopOut where
  | blockedOut : Bool → String → String → LoopOut
  | next : LoopState → LoopOut
deriving DecidableEq, Repr

/-- Initial loop state for input text `text`. -/
def initState (text : String) : LoopState :=
  ⟨text, false, false, none, 0⟩

/-- Action dispatch of one rule after its pattern matched and the probability
gate passed (src/plugin.py lines 79-91).  `p` is the (non-empty) pattern.
A block rule returns early; a replace rule applies `re.sub` (an `re.error`
there is caught and the rule is skipped); an LLM rule records that arbitration
is needed and remembers the first such pattern; any other action string does
nothing. -/
def afterGate (R : RegexEngine) (rule : Rule) (p : String) (st : LoopState) : LoopOut :=
  if rule.action = "拦截整条消息" then .blockedOut st.modified st.cur p
  else if rule.action = "替换命中文字" then
    match R.sub p rule.replacement st.cur with
    | .error _ => .next st
    | .ok newText =>
      if newText ≠ st.cur then .next { st with cur := newText, modified := true }
      else .next st
  else if rule.action = "使用LLM判断是否拦截" then
    .next { st with llmNeeded := true,
                    hitPattern := match st.hitPattern with
                                  | none => some p
                                  | some q => some q }
  else .next st

/-- One iteration of the rule loop (src/plugin.py lines 63-97): skip a rule
with a missing or empty pattern; an `re.error` from `re.search` is caught and
the rule skipped; on a match, `random.random()` is drawn only when
`probability < 1.0`, and a draw strictly above the probability skips the
action. -/
def ruleStep (R : RegexEngine) (rng : ℕ → ℚ) (rule : Rule) (st : LoopState) : LoopOut :=
  match rule.pattern with
  | none => .next st
  | some p =>
    if p = "" then .next st
    else
      match R.search p st.cur with
      | .error _ => .next st
      | .ok false => .next st
      | .ok true =>
        if rule.probability < 1 then
          if rng st.k > rule.probability then .next { st with k := st.k + 1 }
          else afterGate R rule p { st with k := st.k + 1 }
        else afterGate R rule p st

/-- The full rule sweep: fold `ruleStep` over the rule list, stopping at the
first early return. -/
def applyRulesLoop (R : RegexEngine) (rng : ℕ → ℚ) : List Rule → LoopState → LoopOut
  | [], st => .next st
  | rule :: rest, st =>
    match ruleStep R rng rule st with
    | .blockedOut m c p => .blockedOut m c p
    | .next st' => applyRulesLoop R rng rest st'

/-- The `(blocked, modified, final_text, hit_pattern)` result tuple of
`_apply_filter_rules_to_text`. -/
abbrev FilterResult := Bool × Bool × String × Option String

/-- Embedding of `_apply_filter_rules_to_text` (src/plugin.py lines 44-124):
the rule sweep followed by the optional LLM arbitration phase.  `.error ()`
is an uncaught exception escaping to the caller (only possible via
`checkReplyWithLLM`). -/
def applyFilterRulesToText (R : RegexEngine) (rng : ℕ → ℚ) (env : LLMEnv)
    (rules : List Rule) (text chatId : String)
    (llmCheckSettings : Option LLMSettings) : Except Unit FilterResult :=
  match applyRulesLoop R rng rules (initState text) with
  | .blockedOut m c p => .ok (true, m, c, some p)
  | .next st =>
    if st.llmNeeded then
      match llmCheckSettings with
      | none => .ok (false, st.modified, st.cur, st.hitPattern)
      | some settings =>
        if pyStrip st.cur = "" then .ok (false, st.modified, st.cur, st.hitPattern)
        else
          match checkReplyWithLLM env chatId st.cur settings.prompt settings.model
              settings.contextCount with
          | .error e => .error e
          | .ok verdict =>
            if verdict.1 then .ok (false, st.modified, st.cur, st.hitPattern)
            else .ok (true, st.modified, st.cur, st.hitPattern)
    else .ok (false, st.modified, st.cur, st.hitPattern)

/-- Embedding of `_remove_text_segments` (src/plugin.py lines 23-25): the
list comprehension keeping every segment whose type is not `"text"`. -/
def removeTextSegments (segments : List Seg) : List Seg :=
  segments.filter (fun s => s.type != "text")

/-- Loop of `_replace_first_text_segment` with its `replaced` flag: a text
segment is rewritten to the new text if the flag is still unset, and dropped
otherwise. -/
def replaceFirstTextSegmentAux (newText : String) : List Seg → Bool → List Seg
  | [], _ => []
  | s :: rest, replaced =>
    if s.type != "text" then s :: replaceFirstTextSegmentAux newText rest replaced
    else
      match replaced with
      | false => { s with data := newText } :: replaceFirstTextSegmentAux newText rest true
      | true => replaceFirstTextSegmentAux newText rest true

/-- Embedding of `_replace_first_text_segment` (src/plugin.py lines 28-41). -/
def replaceFirstTextSegment (segments : List Seg) (newText : String) : List Seg :=
  replaceFirstTextSegmentAux newText segments false

/-- The in-order concatenation of the text segments, line 235 of
src/plugin.py: `"".join([seg.data for seg in message_segments if seg.type ==
"text"])`. -/
def textConcat (segments : List Seg) : String :=
  String.join ((segments.filter (fun s => s.type == "text")).map (fun s => s.data))

/-- The slice of a `MaiMessages` object the pre-send handler reads. -/
structure PreMsg where
  streamId : String
  plainText : String
  segments : List Seg
deriving DecidableEq, Repr

/-- The handler's five-tuple return `(continue, should_send, status, None,
message-or-None)`, with the returned message represented by its segment
list. -/
structure HandlerResult where
  continueProcessing : Bool
  shouldSend : Bool
  status : Option String
  newSegments : Option (List Seg)
deriving DecidableEq, Repr

/-- In-place `segments[0].data = current_text` of the single-segment branch
(src/plugin.py line 271). -/
def setFirstData (segments : List Seg) (t : String) : List Seg :=
  match segments with
  | [] => []
  | s :: rest => { s with data := t } :: rest

/-- Embedding of `PreSendMessageFilterEventHandler.execute` (src/plugin.py
lines 225-280).  The engine is invoked with no LLM settings; the post-engine
branches reconcile the edited text with the segment list. -/
def preSendExecute (R : RegexEngine) (rng : ℕ → ℚ) (env : LLMEnv)
    (rules : List Rule) (msg : Option PreMsg) : Except Unit HandlerResult :=
  if rules = [] then .ok ⟨true, true, some "无规则，跳过执行", none⟩
  else
    match msg with
    | none => .ok ⟨true, true, some "消息内容为空", none⟩
    | some m =>
      if m.plainText = "" then .ok ⟨true, true, some "消息内容为空", none⟩
      else
        match applyFilterRulesToText R rng env rules (textConcat m.segments)
            m.streamId none with
        | .error e => .error e
        | .ok (blocked, modified, currentText, hitPattern) =>
          if blocked then
            .ok ⟨true, false,
                 some ("命中拦截规则: " ++ hitPattern.getD "None" ++ " 中止后续流程"), none⟩
          else if modified = false then .ok ⟨true, true, some "已放行消息", none⟩
          else if pyStrip currentText = "" then
            if m.segments.length = 1 then
              .ok ⟨true, false, some "消息内容为空，已取消发送", none⟩
            else
              let segs := removeTextSegments m.segments
              if segs.length = 0 ∨ segs.all (fun s => s.type == "reply") then
                .ok ⟨true, false, some "消息内容为空，已取消发送。", none⟩
              else .ok ⟨true, true, some "已按规则替换部分消息内容", some segs⟩
          else if m.segments.length = 1 then
            .ok ⟨true, true, some "已按规则替换部分消息内容",
                 some (setFirstData m.segments currentText)⟩
          else
            .ok ⟨true, true, some "已按规则替换部分内容",
                 some (replaceFirstTextSegment m.segments currentText)⟩

/-- The enabled filter of `MessageFilterPlugin.get_plugin_components`
(src/plugin.py lines 433-434): only rules whose `enabled` select equals
`"启用"` are handed to the handlers. -/
def filterEnabled (rules : List Rule) : List Rule :=
  rules.filter (fun r => r.enabled == some "启用")

/-- Substring occurrence for literal (metacharacter-free) patterns over
character lists: `re.search` for such patterns. -/
def lOccurs (p : List Char) : List Char → Bool
  | [] => p.isEmpty
  | c :: cs => p.isPrefixOf (c :: cs) || lOccurs p cs

/-- Replace-all for literal patterns: scans left to right, emits the
replacement at each non-overlapping occurrence; the numeric argument counts
pattern characters still to be skipped after an accepted occurrence. -/
def lSubAllAux (p r : List Char) : List Char → ℕ → List Char
  | [], _ => []
  | _ :: cs, Nat.succ k => lSubAllAux p r cs k
  | c :: cs, 0 =>
    if p ≠ [] ∧ p.isPrefixOf (c :: cs) then r ++ lSubAllAux p r cs (p.length - 1)
    else c :: lSubAllAux p r cs 0

/-- Replace every non-overlapping occurrence of `p` in `t` by `r`, left to
right: `re.sub` for literal non-empty patterns. -/
def lSubAll (p r t : List Char) : List Char :=
  lSubAllAux p r t 0

/-- A concrete `RegexEngine` faithful to Python `re` on literal, non-empty,
metacharacter-free patterns (the only patterns the witnesses below use):
search is substring occurrence and sub replaces all non-overlapping
occurrences; neither ever raises. -/
def listEngine : RegexEngine where
  search := fun p t => .ok (lOccurs p.toList t.toList)
  sub := fun p r t => .ok (String.mk (lSubAll p.toList r.toList t.toList))

/-- A `RegexEngine` modelling a pattern whose compilation fails: every call
raises `re.error`. -/
def badEngine : RegexEngine where
  search := fun _ _ => .error ()
  sub := fun _ _ _ => .error ()

/-- A draw stream whose every value is `0` (a value `random.random()` can
return). -/
def zeroRng : ℕ → ℚ := fun _ => 0

/-- A draw stream whose every value is `1/2`. -/
def halfRng : ℕ → ℚ := fun _ => (1 : ℚ) / 2

/-- A benign environment for witnesses: no model is registered, history is
empty, generation succeeds with an empty response. -/
def defaultEnv : LLMEnv where
  availableModels := fun _ => none
  recentMessagesText := fun _ _ => ""
  generate := fun _ _ => (true, "")

/-- One step of the plain successive-substitution fold: `regexReplaceAll` of
the rule's pattern in the accumulated text (a rule without a pattern, or a
failing substitution, leaves the text alone — dead cases under the
hypotheses of the theorems that use this). -/
def subStep (R : RegexEngine) (r : Rule) (t : String) : String :=
  match r.pattern with
  | none => t
  | some p =>
    match R.sub p r.replacement t with
    | .error _ => t
    | .ok u => u

/-- Successive application of regex replace-all, each pattern replaced in
the text produced by the previous rule, in list order. -/
def successiveSub (R : RegexEngine) (rules : List Rule) (t : String) : String :=
  rules.foldl (fun acc r => subStep R r acc) t

/-- One step of the successive-substitution fold that also tracks whether
some substitution changed the text. -/
def subStepM (R : RegexEngine) (r : Rule) (acc : String × Bool) : String × Bool :=
  (subStep R r acc.1, acc.2 || decide (subStep R r acc.1 ≠ acc.1))

/-- Successive substitution with a changed flag: the second component is true
exactly when at least one substitution step changed the text it was given. -/
def successiveSubM (R : RegexEngine) (rules : List Rule) (start : String × Bool) :
    String × Bool :=
  rules.foldl (fun acc r => subStepM R r acc) start

/-- Some substitution step along the fold changed the text it received. -/
def someSubChanged (R : RegexEngine) : List Rule → String → Prop
  | [], _ => False
  | r :: rest, t => subStep R r t ≠ t ∨ someSubChanged R rest (subStep R r t)

/-- Hypotheses of claim C2: every rule is a Replace rule with probability
`1.0`, carrying a non-empty pattern on which the regex engine neither fails
to search nor fails to substitute. -/
def ReplaceOnly (R : RegexEngine) (rules : List Rule) : Prop :=
  ∀ r ∈ rules, r.action = "替换命中文字" ∧ r.probability = 1 ∧
    ∃ p, r.pattern = some p ∧ p ≠ "" ∧
      (∀ t, ∃ b, R.search p t = .ok b) ∧
      (∀ t, ∃ u, R.sub p r.replacement t = .ok u)

/-- Coherence property of the Python `re` module relied on by claim C2: when
a pattern does not occur in a text, replace-all leaves the text unchanged. -/
def NoMatchNoChange (R : RegexEngine) : Prop :=
  ∀ p r t, R.search p t = .ok false → R.sub p r t = .ok t

/-- Witness fixture: a Replace rule rewriting `x` to `y`. -/
def w1pre : Rule := { pattern := some "x", action := "替换命中文字", replacement := "y" }

/-- Witness fixture: a Block rule on pattern `y`. -/
def w1block : Rule := { pattern := some "y" }

/-- Witness fixture: a Replace rule after the block rule, rewriting `y` to
`z`; it must never run. -/
def w1post : Rule := { pattern := some "y", action := "替换命中文字", replacement := "z" }

/-- Witness fixture for C2: two Replace rules that compose left to right. -/
def c2rules : List Rule :=
  [{ pattern := some "ab", action := "替换命中文字", replacement := "X" },
   { pattern := some "Xc", action := "替换命中文字", replacement := "Y" }]

/-- Fixture for C3: a rule requesting LLM arbitration. -/
def c3llmRule : Rule := { pattern := some "a", action := "使用LLM判断是否拦截" }

/-- Fixture for C3: a rule whose pattern is invalid regex (an unclosed
group), evaluated against the always-raising `badEngine`. -/
def c3invalidRule : Rule := { pattern := some "(" }

/-- Fixture for C3: an environment whose model registry resolves and whose
generation call succeeds. -/
def c3env : LLMEnv where
  availableModels := fun _ => some "mc"
  recentMessagesText := fun _ _ => "ctx"
  generate := fun _ _ => (true, "发送")

/-- Fixture for C3: arbitration settings whose prompt template holds an
unknown placeholder, on which Python `str.format` raises `KeyError`. -/
def c3badSettings : LLMSettings := { prompt := "\x7boops\x7d", model := "m", contextCount := 1 }

/-- Fixture for C3: arbitration settings with a placeholder-free prompt. -/
def c3safeSettings : LLMSettings := { prompt := "judge", model := "m", contextCount := 1 }

/-- Fixture for C4: one Replace rule deleting a literal dot. -/
def c4rules : List Rule :=
  [{ pattern := some ".", action := "替换命中文字", replacement := "" }]

/-- Fixture for C4: a reply segment followed by a text segment holding only a
dot, so the edited text trims to empty. -/
def c4msg : PreMsg := ⟨"s", ".", [⟨"reply", "r"⟩, ⟨"text", "."⟩]⟩

/-- Fixture for C5: one Replace rule rewriting `b` to `X`. -/
def c5rules : List Rule :=
  [{ pattern := some "b", action := "替换命中文字", replacement := "X" }]

/-- Fixture for C5: two text segments around an image segment. -/
def c5msg : PreMsg := ⟨"s", "ab", [⟨"text", "a"⟩, ⟨"image", "I"⟩, ⟨"text", "b"⟩]⟩

/-- Fixture for C7: an environment whose generation call succeeds with a
whitespace-padded refusal. -/
def c7env : LLMEnv where
  availableModels := fun _ => some "mc"
  recentMessagesText := fun _ _ => "ctx"
  generate := fun _ _ => (true, " 不发送 原因 ")

/-- Fixture for C8: a rule that is disabled and has an empty pattern. -/
def c8rule : Rule := { enabled := some "不启用", pattern := some "" }

/-- Fixture for C9: a Block rule with probability `0.0`. -/
def c9rule : Rule := { pattern := some "a", probability := 0 }

/-- Fixture for C10: a Block rule whose pattern spans a segment boundary. -/
def c10rule : Rule := { pattern := some "bc" }

/-- Fixture for C10: two text segments `ab` and `cd` separated by an image;
no single segment contains `bc`, their concatenation does. -/
def c10msg : PreMsg := ⟨"s", "abcd", [⟨"text", "ab"⟩, ⟨"image", "IMG"⟩, ⟨"text", "cd"⟩]⟩

/-! ## Helper lemmas -/

/-- The rule sweep over an appended list runs the first part and, unless it
blocked, continues with the second from the reached state. -/
theorem applyRulesLoop_append (R : RegexEngine) (rng : ℕ → ℚ) (xs ys : List Rule)
    (st : LoopState) :
    applyRulesLoop R rng (xs ++ ys) st =
      match applyRulesLoop R rng xs st with
      | .blockedOut m c p => .blockedOut m c p
      | .next st' => applyRulesLoop R rng ys st' := by
  induction xs generalizing st with
  | nil => simp [applyRulesLoop]
  | cons x xs ih =>
    simp only [List.cons_append, applyRulesLoop]
    cases ruleStep R rng x st with
    | blockedOut m c p => rfl
    | next st' => exact ih st'

/-- Substitution with a pattern that does not occur leaves a character list
unchanged. -/
theorem lSubAllAux_id_of_not_occurs (p r : List Char) :
    ∀ t : List Char, lOccurs p t = false → lSubAllAux p r t 0 = t := by
  intro t
  induction t with
  | nil => intro _; rfl
  | cons c cs ih =>
    intro h
    simp only [lOccurs, Bool.or_eq_false_iff] at h
    simp only [lSubAllAux]
    rw [if_neg (by simp [h.1]), ih h.2]

/-- Rebuilding a string from its character list gives the string back. -/
theorem stringMk_toList (s : String) : String.mk s.toList = s := rfl

/-- The literal-pattern engine satisfies the `re` coherence property: no
occurrence means replace-all is the identity. -/
theorem listEngine_noMatchNoChange : NoMatchNoChange listEngine := by
  intro p r t h
  simp only [listEngine] at h ⊢
  have h2 : lOccurs p.toList t.toList = false := by
    injection h
  rw [lSubAll, lSubAllAux_id_of_not_occurs _ _ _ h2, stringMk_toList]

/-- A template with no brace characters formats to itself. -/
theorem pyFormatAux_of_no_braces (msgs reply : String) :
    ∀ l : List Char, (∀ c ∈ l, c ≠ lbrace ∧ c ≠ rbrace) →
      pyFormatAux msgs reply .normal l = .ok l := by
  intro l
  induction l with
  | nil => intro _; rfl
  | cons c cs ih =>
    intro h
    obtain ⟨h1, h2⟩ := h c (List.mem_cons_self c cs)
    simp only [pyFormatAux, if_neg h1, if_neg h2]
    rw [ih (fun x hx => h x (List.mem_cons_of_mem c hx))]
    rfl

/-- Formatting a brace-free template never raises. -/
theorem pyFormat_ok_of_no_braces (tmpl : String)
    (h : ∀ c ∈ tmpl.toList, c ≠ lbrace ∧ c ≠ rbrace) (msgs reply : String) :
    ∃ u, pyFormat tmpl msgs reply = .ok u := by
  refine ⟨String.mk tmpl.toList, ?_⟩
  simp only [pyFormat, pyFormatAux_of_no_braces msgs reply tmpl.toList h]
  rfl

/-- The text component of the flag-tracking fold is the plain successive
substitution. -/
theorem successiveSubM_fst (R : RegexEngine) (rules : List Rule) :
    ∀ start : String × Bool, (successiveSubM R rules start).1 = successiveSub R rules start.1 := by
  induction rules with
  | nil => intro start; rfl
  | cons r rest ih =>
    intro start
    simp only [successiveSubM, successiveSub, List.foldl_cons]
    have := ih (subStepM R r start)
    simp only [successiveSubM, successiveSub] at this
    rw [this]
    rfl

/-- The changed flag of the fold is true exactly when it started true or some
substitution step changed the text it received. -/
theorem successiveSubM_snd_iff (R : RegexEngine) (rules : List Rule) :
    ∀ (t : String) (m : Bool),
      ((successiveSubM R rules (t, m)).2 = true ↔ m = true ∨ someSubChanged R rules t) := by
  induction rules with
  | nil =>
    intro t m
    simp [successiveSubM, someSubChanged]
  | cons r rest ih =>
    intro t m
    simp only [successiveSubM, List.foldl_cons, someSubChanged]
    have := ih (subStep R r t) (m || decide (subStep R r t ≠ t))
    simp only [successiveSubM] at this
    rw [show subStepM R r (t, m) = (subStep R r t, m || decide (subStep R r t ≠ t)) from rfl]
    rw [this]
    by_cases hc : subStep R r t ≠ t <;> by_cases hm : m = true <;> simp [hc, hm]

/-- A Replace rule with probability one and a valid non-empty pattern always
advances the loop state by one substitution-fold step. -/
theorem ruleStep_replace (R : RegexEngine) (rng : ℕ → ℚ) (r : Rule) (st : LoopState)
    (p : String) (hact : r.action = "替换命中文字") (hprob : r.probability = 1)
    (hpat : r.pattern = some p) (hne : p ≠ "")
    (hsearch : ∀ t, ∃ b, R.search p t = .ok b)
    (hsub : ∀ t, ∃ u, R.sub p r.replacement t = .ok u)
    (h2 : NoMatchNoChange R) :
    ruleStep R rng r st =
      .next { st with cur := subStep R r st.cur,
                      modified := st.modified || decide (subStep R r st.cur ≠ st.cur) } := by
  obtain ⟨b, hb⟩ := hsearch st.cur
  have hnotlt : ¬ r.probability < 1 := by rw [hprob]; exact lt_irrefl 1
  cases b with
  | false =>
    have hid := h2 p r.replacement st.cur hb
    have hsteq : subStep R r st.cur = st.cur := by simp [subStep, hpat, hid]
    rw [hsteq]
    simp only [ruleStep, hpat, if_neg hne, hb]
    congr 1
    simp
  | true =>
    obtain ⟨u, hu⟩ := hsub st.cur
    have hsteq : subStep R r st.cur = u := by simp [subStep, hpat, hu]
    rw [hsteq]
    simp only [ruleStep, hpat, if_neg hne, hb, if_neg hnotlt, afterGate, hact]
    rw [if_pos trivial]
    simp only [hu]
    by_cases huc : u = st.cur
    · rw [if_neg (by simp [huc])]
      subst huc
      simp
    · rw [if_pos huc]
      simp [huc]

/-- Under the C2 hypotheses the rule sweep never blocks, never requests
arbitration, never draws randomness, and its text and modified flag follow
the substitution fold. -/
theorem applyRulesLoop_replaceOnly (R : RegexEngine) (rng : ℕ → ℚ) :
    ∀ (rules : List Rule) (st : LoopState), ReplaceOnly R rules → NoMatchNoChange R →
      applyRulesLoop R rng rules st =
        .next { st with cur := (successiveSubM R rules (st.cur, st.modified)).1,
                        modified := (successiveSubM R rules (st.cur, st.modified)).2 } := by
  intro rules
  induction rules with
  | nil => intro st _ _; simp [applyRulesLoop, successiveSubM]
  | cons r rest ih =>
    intro st h1 h2
    obtain ⟨hact, hprob, p, hpat, hne, hsearch, hsub⟩ := h1 r (List.mem_cons_self r rest)
    have hrest : ReplaceOnly R rest := fun q hq => h1 q (List.mem_cons_of_mem r hq)
    have hstep := ruleStep_replace R rng r st p hact hprob hpat hne hsearch hsub h2
    simp only [applyRulesLoop, hstep]
    rw [ih _ hrest h2]
    simp only [successiveSubM, List.foldl_cons]
    rfl


/-- Appending to the empty string on the left is the identity. -/
theorem stringEmpty_append (s : String) : "" ++ s = s := by
  apply String.ext
  rw [String.data_append]
  rfl

/-- Joining a non-empty list of strings peels off the head. -/
theorem stringJoin_cons (a : String) (l : List String) :
    String.join (a :: l) = a ++ String.join l := by
  apply String.ext
  simp [String.data_join, String.data_append]

/-- Joining distributes over list append. -/
theorem stringJoin_append (l1 l2 : List String) :
    String.join (l1 ++ l2) = String.join l1 ++ String.join l2 := by
  apply String.ext
  simp [String.data_join, String.data_append]

/-- Head characterization of the text concatenation: a text segment
contributes its data, any other segment contributes nothing. -/
theorem textConcat_cons (s : Seg) (rest : List Seg) :
    textConcat (s :: rest) = (if s.type = "text" then s.data else "") ++ textConcat rest := by
  by_cases h : s.type = "text"
  · simp [textConcat, List.filter_cons, h, stringJoin_cons]
  · simp [textConcat, List.filter_cons, h, stringEmpty_append]

/-- The text concatenation is a homomorphism for list append. -/
theorem textConcat_append (l1 l2 : List Seg) :
    textConcat (l1 ++ l2) = textConcat l1 ++ textConcat l2 := by
  unfold textConcat
  rw [List.filter_append, List.map_append, stringJoin_append]

/-- Once the replaced flag is set, the rest of the
`_replace_first_text_segment` loop just deletes text segments. -/
theorem replaceFirstTextSegmentAux_true (t : String) :
    ∀ l : List Seg, replaceFirstTextSegmentAux t l true = removeTextSegments l := by
  intro l
  induction l with
  | nil => rfl
  | cons s rest ih =>
    simp only [removeTextSegments] at ih ⊢
    by_cases h : s.type = "text" <;>
      simp [replaceFirstTextSegmentAux, List.filter_cons, h, ih]

/-- `_replace_first_text_segment` does not change the subsequence of
non-text segments. -/
theorem replaceFirstTextSegmentAux_filter_nontext (t : String) :
    ∀ (l : List Seg) (b : Bool),
      (replaceFirstTextSegmentAux t l b).filter (fun s => s.type != "text") =
        l.filter (fun s => s.type != "text") := by
  intro l
  induction l with
  | nil => intro b; rfl
  | cons s rest ih =>
    intro b
    have ih2 : ∀ b : Bool, (replaceFirstTextSegmentAux t rest b).filter
        (fun s => s.type != "text") = rest.filter (fun s => s.type != "text") := ih
    by_cases h : s.type = "text"
    · cases b <;> simp [replaceFirstTextSegmentAux, h, List.filter_cons, ih2]
    · simp [replaceFirstTextSegmentAux, h, List.filter_cons, ih2]

/-- Deleting the text segments leaves no text segment behind. -/
theorem textFilter_removeTextSegments :
    ∀ l : List Seg, (removeTextSegments l).filter (fun s => s.type == "text") = [] := by
  intro l
  induction l with
  | nil => rfl
  | cons s rest ih =>
    simp only [removeTextSegments] at ih ⊢
    by_cases h : s.type = "text" <;> simp [List.filter_cons, h, ih]

/-- At most one text segment survives `_replace_first_text_segment`. -/
theorem replaceFirstTextSegment_text_count (l : List Seg) (t : String) :
    ((replaceFirstTextSegment l t).filter (fun s => s.type == "text")).length ≤ 1 := by
  rw [replaceFirstTextSegment]
  induction l with
  | nil => simp [replaceFirstTextSegmentAux]
  | cons s rest ih =>
    by_cases h : s.type = "text"
    · simp [replaceFirstTextSegmentAux, h, List.filter_cons, replaceFirstTextSegmentAux_true,
        textFilter_removeTextSegments]
    · simp only [replaceFirstTextSegmentAux, List.filter_cons]
      simp [h]
      exact ih

/-- Splitting at the first text segment: every earlier segment is kept, the
first text segment is rewritten to the new text, and every later text
segment is deleted. -/
theorem replaceFirstTextSegment_split (t : String) :
    ∀ (pre : List Seg) (s : Seg) (post : List Seg),
      (∀ x ∈ pre, x.type ≠ "text") → s.type = "text" →
      replaceFirstTextSegment (pre ++ s :: post) t =
        pre ++ { s with data := t } :: removeTextSegments post := by
  intro pre
  induction pre with
  | nil =>
    intro s post _ hs
    simp [replaceFirstTextSegment, replaceFirstTextSegmentAux, hs,
      replaceFirstTextSegmentAux_true]
  | cons x pre ih =>
    intro s post hpre hs
    have hx : x.type ≠ "text" := hpre x (List.mem_cons_self x pre)
    have h2 := ih s post (fun y hy => hpre y (List.mem_cons_of_mem x hy)) hs
    simp only [replaceFirstTextSegment] at h2
    simp [replaceFirstTextSegment, replaceFirstTextSegmentAux, hx, h2]

/-- The arbitrator only raises through the prompt-template format call: with
a template that formats cleanly, it always returns a verdict. -/
theorem checkReplyWithLLM_isOk (env : LLMEnv) (chatId replyText prompt modelName : String)
    (cc : ℕ) (hfmt : ∀ msgs rt, ∃ u, pyFormat prompt msgs rt = .ok u) :
    ∃ v, checkReplyWithLLM env chatId replyText prompt modelName cc = .ok v := by
  by_cases h1 : chatId = ""
  · exact ⟨(true, "无法获取上下文"), by simp only [checkReplyWithLLM, if_pos h1]⟩
  by_cases h2 : prompt = ""
  · exact ⟨(true, "LLM判断提示词模板为空"), by simp only [checkReplyWithLLM, if_neg h1, if_pos h2]⟩
  cases hm : env.availableModels modelName with
  | none =>
    exact ⟨(true, "指定的LLM模型 " ++ modelName ++ " 不存在"),
      by simp only [checkReplyWithLLM, if_neg h1, if_neg h2, hm]⟩
  | some mc =>
    obtain ⟨u, hu⟩ := hfmt (env.recentMessagesText chatId cc) replyText
    by_cases hg : (env.generate u mc).1 = false
    · refine ⟨(true, "LLM调用失败: " ++ (env.generate u mc).2), ?_⟩
      simp only [checkReplyWithLLM, if_neg h1, if_neg h2, hm, hu]
      rw [if_pos hg]
    by_cases hr : pyStrip (env.generate u mc).2 ≠ "发送"
    · refine ⟨(false, pyStrip (env.generate u mc).2), ?_⟩
      simp only [checkReplyWithLLM, if_neg h1, if_neg h2, hm, hu]
      rw [if_neg hg, if_pos hr]
    · refine ⟨(true, pyStrip (env.generate u mc).2), ?_⟩
      simp only [checkReplyWithLLM, if_neg h1, if_neg h2, hm, hu]
      rw [if_neg hg, if_neg hr]

/-- C6: for every arbitration call, each external-dependency failure —
missing stream identifier, empty prompt template, model group id not present
in the model registry, or generation-call failure — makes the arbitrator
return `shouldSend = true` with an explanatory reason, regardless of the
candidate text content; arbitration failure never suppresses a message. -/
theorem C6_arbitration_fail_open (env : LLMEnv) (chatId replyText prompt modelName : String)
    (cc : ℕ)
    (h : chatId = "" ∨ prompt = "" ∨ env.availableModels modelName = none ∨
      (∃ mc fp, env.availableModels modelName = some mc ∧
        pyFormat prompt (env.recentMessagesText chatId cc) replyText = .ok fp ∧
        (env.generate fp mc).1 = false)) :
    ∃ reason, checkReplyWithLLM env chatId replyText prompt modelName cc = .ok (true, reason) := by
  by_cases h1 : chatId = ""
  · exact ⟨"无法获取上下文", by simp only [checkReplyWithLLM, if_pos h1]⟩
  by_cases h2 : prompt = ""
  · exact ⟨"LLM判断提示词模板为空", by simp only [checkReplyWithLLM, if_neg h1, if_pos h2]⟩
  rcases h with h | h | h | h
  · exact absurd h h1
  · exact absurd h h2
  · exact ⟨"指定的LLM模型 " ++ modelName ++ " 不存在",
      by simp only [checkReplyWithLLM, if_neg h1, if_neg h2, h]⟩
  · obtain ⟨mc, fp, hmc, hfp, hgen⟩ := h
    refine ⟨"LLM调用失败: " ++ (env.generate fp mc).2, ?_⟩
    simp only [checkReplyWithLLM, if_neg h1, if_neg h2, hmc, hfp]
    rw [if_pos hgen]

/-- Witness for C6 at a concrete input: the registry has no model for the
requested group, and the arbitrator allows the send. -/
theorem C6_arbitration_fail_open_witness :
    ∃ reason, checkReplyWithLLM defaultEnv "chat" "candidate" "prompt" "group" 5 =
      .ok (true, reason) :=
  C6_arbitration_fail_open defaultEnv "chat" "candidate" "prompt" "group" 5
    (Or.inr (Or.inr (Or.inl rfl)))

/-- C7 (amended): on a successful generation call the arbitrator strips the
response; a stripped response equal to the send token yields
`shouldSend = true`, any other yields `shouldSend = false`, and in both
cases the reason is the stripped response text (not the raw response). -/
theorem C7_llm_verdict (env : LLMEnv) (chatId replyText prompt modelName : String)
    (cc : ℕ) (mc fp : String)
    (hchat : chatId ≠ "") (hprompt : prompt ≠ "")
    (hmodel : env.availableModels modelName = some mc)
    (hfmt : pyFormat prompt (env.recentMessagesText chatId cc) replyText = .ok fp)
    (hgen : (env.generate fp mc).1 = true) :
    checkReplyWithLLM env chatId replyText prompt modelName cc =
      .ok (decide (pyStrip (env.generate fp mc).2 = "发送"), pyStrip (env.generate fp mc).2) := by
  simp only [checkReplyWithLLM, if_neg hchat, if_neg hprompt, hmodel, hfmt]
  rw [if_neg (by simp [hgen])]
  by_cases hr : pyStrip (env.generate fp mc).2 = "发送"
  · rw [if_neg (by simp [hr])]
    simp [hr]
  · rw [if_pos hr]
    simp [hr]

/-- Counterexample to C7 as stated: the generation call succeeds with the
whitespace-padded response `" 不发送 原因 "`, and the arbitrator returns the
stripped text `"不发送 原因"` as the reason — not the full response text. -/
theorem C7_counterexample :
    checkReplyWithLLM c7env "chat" "reply" "prompt" "m" 1 = .ok (false, "不发送 原因") ∧
      (c7env.generate "prompt" "mc").2 = " 不发送 原因 " ∧
      ("不发送 原因" : String) ≠ " 不发送 原因 " :=
  ⟨rfl, rfl, by decide⟩

/-- Witness for C7 at a concrete input, through the amended theorem. -/
theorem C7_llm_verdict_witness :
    checkReplyWithLLM c7env "chat" "reply" "prompt" "m" 1 = .ok (false, "不发送 原因") :=
  C7_llm_verdict c7env "chat" "reply" "prompt" "m" 1 "mc" "prompt"
    (by decide) (by decide) rfl rfl rfl

/-- C1: the first rule whose pattern matches the current text, whose
probability gate passes, and whose action is Block immediately terminates
rule evaluation: the engine returns blocked with the modified flag and
current text accumulated by the preceding rules and the blocking rule's
pattern as hit pattern, and the rules after it (`post`, universally
quantified and absent from the conclusion) are never evaluated. -/
theorem C1_block_short_circuits (R : RegexEngine) (rng : ℕ → ℚ) (env : LLMEnv)
    (pre post : List Rule) (r : Rule) (text chatId : String)
    (settings : Option LLMSettings) (st : LoopState) (p : String)
    (hpre : applyRulesLoop R rng pre (initState text) = .next st)
    (hpat : r.pattern = some p) (hne : p ≠ "")
    (hmatch : R.search p st.cur = .ok true)
    (hgate : ¬(r.probability < 1 ∧ rng st.k > r.probability))
    (hact : r.action = "拦截整条消息") :
    applyFilterRulesToText R rng env (pre ++ r :: post) text chatId settings =
      .ok (true, st.modified, st.cur, some p) := by
  have hstep : ruleStep R rng r st = .blockedOut st.modified st.cur p := by
    simp only [ruleStep, hpat, if_neg hne, hmatch]
    by_cases hp : r.probability < 1
    · rw [if_pos hp, if_neg (fun hgt => hgate ⟨hp, hgt⟩)]
      simp [afterGate, hact]
    · rw [if_neg hp]
      simp [afterGate, hact]
  have hloop : applyRulesLoop R rng (pre ++ r :: post) (initState text) =
      .blockedOut st.modified st.cur p := by
    rw [applyRulesLoop_append, hpre]
    simp only [applyRulesLoop, hstep]
  simp only [applyFilterRulesToText, hloop]

/-- Witness for C1 at a concrete input: a Replace rule rewrites `x` to `y`,
the Block rule on `y` fires, and the Replace rule after it (rewriting `y`
to `z`) never runs: the final text is still `y`. -/
theorem C1_block_short_circuits_witness :
    applyFilterRulesToText listEngine zeroRng defaultEnv ([w1pre] ++ w1block :: [w1post])
      "x" "chat" none = .ok (true, true, "y", some "y") :=
  C1_block_short_circuits listEngine zeroRng defaultEnv [w1pre] [w1post] w1block "x" "chat"
    none ⟨"y", true, false, none, 0⟩ "y" (by decide) rfl (by decide) rfl (by decide) rfl

/-- C2: on a rule list of Replace-only probability-one rules the engine
returns unblocked, with final text the successive application of regex
replace-all in list order (each pattern applied to the text produced by the
previous rule), no hit pattern, and the modified flag true exactly when at
least one substitution changed the text it received. -/
theorem C2_replace_only_fold (R : RegexEngine) (rng : ℕ → ℚ) (env : LLMEnv)
    (rules : List Rule) (text chatId : String) (settings : Option LLMSettings)
    (h1 : ReplaceOnly R rules) (h2 : NoMatchNoChange R) :
    applyFilterRulesToText R rng env rules text chatId settings =
      .ok (false, (successiveSubM R rules (text, false)).2, successiveSub R rules text, none) ∧
    ((successiveSubM R rules (text, false)).2 = true ↔ someSubChanged R rules text) := by
  constructor
  · have hloop := applyRulesLoop_replaceOnly R rng rules (initState text) h1 h2
    simp only [applyFilterRulesToText, hloop]
    simp [initState, successiveSubM_fst R rules]
  · have h := successiveSubM_snd_iff R rules text false
    simpa using h

/-- Witness for C2 at a concrete input: `ab` is rewritten to `X` and then
`Xc` to `Y`, so the second rule sees the first rule's output. -/
theorem C2_replace_only_fold_witness :
    applyFilterRulesToText listEngine zeroRng defaultEnv c2rules "abc" "chat" none =
      .ok (false, true, "Y", none) := by
  have h1 : ReplaceOnly listEngine c2rules := by
    intro r hr
    simp only [c2rules, List.mem_cons, List.not_mem_nil, or_false] at hr
    rcases hr with rfl | rfl
    · exact ⟨rfl, rfl, "ab", rfl, by decide, fun t => ⟨_, rfl⟩, fun t => ⟨_, rfl⟩⟩
    · exact ⟨rfl, rfl, "Xc", rfl, by decide, fun t => ⟨_, rfl⟩, fun t => ⟨_, rfl⟩⟩
  exact (C2_replace_only_fold listEngine zeroRng defaultEnv c2rules "abc" "chat" none
    h1 listEngine_noMatchNoChange).1

/-- C8: a rule with a missing or empty pattern is skipped by the engine, and
a rule whose enabled select is not `"启用"` is removed by the component
loader, so in both cases the outcome is identical to evaluating the rule
list without that rule. -/
theorem C8_skip_empty_pattern_and_disabled (R : RegexEngine) (rng : ℕ → ℚ) (env : LLMEnv)
    (pre post : List Rule) (r : Rule) (text chatId : String)
    (settings : Option LLMSettings) :
    ((r.pattern = none ∨ r.pattern = some "") →
      applyFilterRulesToText R rng env (pre ++ r :: post) text chatId settings =
        applyFilterRulesToText R rng env (pre ++ post) text chatId settings) ∧
    (r.enabled ≠ some "启用" →
      applyFilterRulesToText R rng env (filterEnabled (pre ++ r :: post)) text chatId settings =
        applyFilterRulesToText R rng env (filterEnabled (pre ++ post)) text chatId settings) := by
  constructor
  · intro hp
    have hstep : ∀ st, ruleStep R rng r st = .next st := by
      intro st
      rcases hp with h | h <;> simp [ruleStep, h]
    have hloop : ∀ st, applyRulesLoop R rng (pre ++ r :: post) st =
        applyRulesLoop R rng (pre ++ post) st := by
      intro st
      rw [applyRulesLoop_append, applyRulesLoop_append]
      cases applyRulesLoop R rng pre st with
      | blockedOut m c q => rfl
      | next st' => simp only [applyRulesLoop, hstep st']
    simp only [applyFilterRulesToText, hloop]
  · intro he
    have heq : filterEnabled (pre ++ r :: post) = filterEnabled (pre ++ post) := by
      rw [filterEnabled, filterEnabled, List.filter_append, List.filter_append,
        List.filter_cons, if_neg (by simpa using he)]
    rw [heq]

/-- Witness for C8 at a concrete input: a disabled rule with an empty
pattern changes neither the engine outcome nor the loaded rule list. -/
theorem C8_skip_empty_pattern_and_disabled_witness :
    (applyFilterRulesToText listEngine zeroRng defaultEnv ([w1pre] ++ c8rule :: [w1block])
        "x" "chat" none =
      applyFilterRulesToText listEngine zeroRng defaultEnv ([w1pre] ++ [w1block])
        "x" "chat" none) ∧
    (applyFilterRulesToText listEngine zeroRng defaultEnv
        (filterEnabled ([w1pre] ++ c8rule :: [w1block])) "x" "chat" none =
      applyFilterRulesToText listEngine zeroRng defaultEnv
        (filterEnabled ([w1pre] ++ [w1block])) "x" "chat" none) :=
  ⟨(C8_skip_empty_pattern_and_disabled listEngine zeroRng defaultEnv [w1pre] [w1block]
      c8rule "x" "chat" none).1 (Or.inr rfl),
   (C8_skip_empty_pattern_and_disabled listEngine zeroRng defaultEnv [w1pre] [w1block]
      c8rule "x" "chat" none).2 (by decide)⟩

/-- Counterexample to C9 as stated: with probability `0.0`, a matching
pattern and the draw value `0` — a value `random.random()` can return — the
gate test `draw > probability` is false, so the Block action fires: the
claim that the action is never applied for every draw value in `[0,1)` is
false. -/
theorem C9_counterexample :
    applyFilterRulesToText listEngine zeroRng defaultEnv [c9rule] "a" "chat" none =
      .ok (true, false, "a", some "a") ∧ zeroRng 0 = 0 ∧ c9rule.probability = 0 :=
  ⟨rfl, rfl, rfl⟩

/-- C9 (amended): with probability `0.0`, a matching pattern and a strictly
positive draw, the gate treats the match as a non-trigger: the rule's
action is not applied and evaluation continues with the next rule (one draw
consumed). -/
theorem C9_probability_zero_gate (R : RegexEngine) (rng : ℕ → ℚ) (r : Rule)
    (rest : List Rule) (st : LoopState) (p : String)
    (hpat : r.pattern = some p) (hne : p ≠ "")
    (hmatch : R.search p st.cur = .ok true)
    (hprob : r.probability = 0) (hdraw : 0 < rng st.k) :
    applyRulesLoop R rng (r :: rest) st =
      applyRulesLoop R rng rest { st with k := st.k + 1 } := by
  have hstep : ruleStep R rng r st = .next { st with k := st.k + 1 } := by
    simp only [ruleStep, hpat, if_neg hne, hmatch, hprob]
    rw [if_pos (by norm_num), if_pos hdraw]
  simp only [applyRulesLoop, hstep]

/-- Witness for C9 at a concrete input: probability `0.0`, draw `1/2`, the
Block rule matches but does not fire. -/
theorem C9_probability_zero_gate_witness :
    applyRulesLoop listEngine halfRng [c9rule] (initState "a") =
      .next ⟨"a", false, false, none, 1⟩ :=
  C9_probability_zero_gate listEngine halfRng c9rule [] (initState "a") "a"
    rfl (by decide) rfl rfl (by norm_num [halfRng])

/-- C10: the text the pre-send rule engine evaluates is the in-order
concatenation of the data of the text segments (head characterization and
append homomorphism), and a pattern can match across the boundary of two
text segments separated by a non-text segment: `bc` occurs in the
concatenation `abcd` but in neither `ab` nor `cd`, and the Block rule on
`bc` cancels the send of the segment list `[Text ab, Image, Text cd]`. -/
theorem C10_text_concat_cross_boundary :
    (∀ (s : Seg) (rest : List Seg),
      textConcat (s :: rest) = (if s.type = "text" then s.data else "") ++ textConcat rest) ∧
    (∀ l1 l2 : List Seg, textConcat (l1 ++ l2) = textConcat l1 ++ textConcat l2) ∧
    textConcat c10msg.segments = "abcd" ∧
    lOccurs "bc".toList "abcd".toList = true ∧
    lOccurs "bc".toList "ab".toList = false ∧
    lOccurs "bc".toList "cd".toList = false ∧
    preSendExecute listEngine zeroRng defaultEnv [c10rule] (some c10msg) =
      .ok ⟨true, false, some "命中拦截规则: bc 中止后续流程", none⟩ :=
  ⟨textConcat_cons, textConcat_append, rfl, rfl, rfl, rfl, rfl⟩

/-- Counterexample to C3 as stated: with arbitration settings whose prompt
template holds the unknown placeholder `oops`, a matching LLM-arbitration
rule and a resolvable model, the `str.format` call raises (Python
`KeyError`) and the exception escapes the rule engine: the engine does not
return a well-formed outcome for every arbitration settings. -/
theorem C3_counterexample :
    applyFilterRulesToText listEngine zeroRng c3env [c3llmRule] "a" "chat"
      (some c3badSettings) = .error () := rfl

/-- C3 (amended): the rule engine returns a well-formed four-part outcome
for every rule list, input text and arbitration settings whose prompt
template formats cleanly (the only uncaught exception is `str.format` on a
malformed template); and a rule whose pattern the regex engine rejects as
invalid is caught per rule, treated as non-matching, and evaluation
continues with the next rule. -/
theorem C3_no_uncaught_exception :
    (∀ (R : RegexEngine) (rng : ℕ → ℚ) (env : LLMEnv) (rules : List Rule)
      (text chatId : String) (settings : Option LLMSettings),
      (∀ s, settings = some s → ∀ msgs rt, ∃ u, pyFormat s.prompt msgs rt = .ok u) →
      ∃ res, applyFilterRulesToText R rng env rules text chatId settings = .ok res) ∧
    (∀ (R : RegexEngine) (rng : ℕ → ℚ) (r : Rule) (rest : List Rule) (st : LoopState)
      (p : String), r.pattern = some p → p ≠ "" → R.search p st.cur = .error () →
      applyRulesLoop R rng (r :: rest) st = applyRulesLoop R rng rest st) := by
  constructor
  · intro R rng env rules text chatId settings hset
    cases hsettings : settings with
    | none =>
      cases hloop : applyRulesLoop R rng rules (initState text) with
      | blockedOut m c p =>
        exact ⟨(true, m, c, some p), by simp only [applyFilterRulesToText, hloop]⟩
      | next st =>
        refine ⟨(false, st.modified, st.cur, st.hitPattern), ?_⟩
        simp only [applyFilterRulesToText, hloop]
        by_cases hllm : st.llmNeeded = true
        · rw [if_pos hllm]
        · rw [if_neg hllm]
    | some s =>
      cases hloop : applyRulesLoop R rng rules (initState text) with
      | blockedOut m c p =>
        exact ⟨(true, m, c, some p), by simp only [applyFilterRulesToText, hloop]⟩
      | next st =>
        by_cases hllm : st.llmNeeded = true
        · by_cases hstrip : pyStrip st.cur = ""
          · refine ⟨(false, st.modified, st.cur, st.hitPattern), ?_⟩
            simp only [applyFilterRulesToText, hloop]
            rw [if_pos hllm, if_pos hstrip]
          · obtain ⟨v, hv⟩ := checkReplyWithLLM_isOk env chatId st.cur s.prompt s.model
              s.contextCount (hset s hsettings)
            by_cases hv1 : v.1 = true
            · refine ⟨(false, st.modified, st.cur, st.hitPattern), ?_⟩
              simp only [applyFilterRulesToText, hloop]
              rw [if_pos hllm, if_neg hstrip]
              simp only [hv]
              rw [if_pos hv1]
            · refine ⟨(true, st.modified, st.cur, st.hitPattern), ?_⟩
              simp only [applyFilterRulesToText, hloop]
              rw [if_pos hllm, if_neg hstrip]
              simp only [hv]
              rw [if_neg hv1]
        · refine ⟨(false, st.modified, st.cur, st.hitPattern), ?_⟩
          simp only [applyFilterRulesToText, hloop]
          rw [if_neg hllm]
  · intro R rng r rest st p hpat hne herr
    have hstep : ruleStep R rng r st = .next st := by
      simp only [ruleStep, hpat, if_neg hne, herr]
    simp only [applyRulesLoop, hstep]

/-- Witness for C3 at concrete inputs: a brace-free prompt template yields a
well-formed outcome through the arbitration path, and a rule with the
invalid-regex pattern `(` is skipped. -/
theorem C3_no_uncaught_exception_witness :
    (∃ res, applyFilterRulesToText listEngine zeroRng c3env [c3llmRule] "a" "chat"
        (some c3safeSettings) = .ok res) ∧
    applyRulesLoop badEngine zeroRng (c3invalidRule :: []) (initState "x") =
      applyRulesLoop badEngine zeroRng [] (initState "x") :=
  ⟨C3_no_uncaught_exception.1 listEngine zeroRng c3env [c3llmRule] "a" "chat"
      (some c3safeSettings)
      (fun s hs msgs rt => by
        cases hs
        exact pyFormat_ok_of_no_braces "judge" (by decide) msgs rt),
   C3_no_uncaught_exception.2 badEngine zeroRng c3invalidRule [] (initState "x") "("
      rfl (by decide) rfl⟩

/-- Reduction of the pre-send handler on the modified, unblocked path: the
handler result is determined by whether the final text strips to empty, the
segment count, and the segment reconciliation helpers. -/
theorem preSendExecute_modified (R : RegexEngine) (rng : ℕ → ℚ) (env : LLMEnv)
    (rules : List Rule) (m : PreMsg) (ft : String) (hp : Option String)
    (hrules : rules ≠ []) (hpt : m.plainText ≠ "")
    (heng : applyFilterRulesToText R rng env rules (textConcat m.segments) m.streamId none =
      .ok (false, true, ft, hp)) :
    preSendExecute R rng env rules (some m) =
      (if pyStrip ft = "" then
        if m.segments.length = 1 then
          .ok ⟨true, false, some "消息内容为空，已取消发送", none⟩
        else
          if (removeTextSegments m.segments).length = 0 ∨
              (removeTextSegments m.segments).all (fun s => s.type == "reply") then
            .ok ⟨true, false, some "消息内容为空，已取消发送。", none⟩
          else
            .ok ⟨true, true, some "已按规则替换部分消息内容", some (removeTextSegments m.segments)⟩
      else
        if m.segments.length = 1 then
          .ok ⟨true, true, some "已按规则替换部分消息内容", some (setFirstData m.segments ft)⟩
        else
          .ok ⟨true, true, some "已按规则替换部分内容",
               some (replaceFirstTextSegment m.segments ft)⟩) := by
  simp [preSendExecute, hrules, hpt, heng]

/-- C4: on the modified, unblocked pre-send path whose final text strips to
empty, a single-element segment list cancels the send; otherwise every text
segment is removed (the remainder is a sublist of the original holding
exactly its non-text segments, in order), the send is cancelled exactly when
the remainder is empty or all reply segments, and otherwise the message is
sent with the filtered segment list. -/
theorem C4_empty_text_reconciliation (R : RegexEngine) (rng : ℕ → ℚ) (env : LLMEnv)
    (rules : List Rule) (m : PreMsg) (ft : String) (hp : Option String)
    (hrules : rules ≠ []) (hpt : m.plainText ≠ "")
    (heng : applyFilterRulesToText R rng env rules (textConcat m.segments) m.streamId none =
      .ok (false, true, ft, hp))
    (hempty : pyStrip ft = "") :
    (m.segments.length = 1 →
      preSendExecute R rng env rules (some m) =
        .ok ⟨true, false, some "消息内容为空，已取消发送", none⟩) ∧
    List.Sublist (removeTextSegments m.segments) m.segments ∧
    (∀ s : Seg, s ∈ removeTextSegments m.segments ↔ s ∈ m.segments ∧ s.type ≠ "text") ∧
    (m.segments.length ≠ 1 →
      (((removeTextSegments m.segments).length = 0 ∨
          (removeTextSegments m.segments).all (fun s => s.type == "reply") = true) →
        preSendExecute R rng env rules (some m) =
          .ok ⟨true, false, some "消息内容为空，已取消发送。", none⟩) ∧
      (¬((removeTextSegments m.segments).length = 0 ∨
          (removeTextSegments m.segments).all (fun s => s.type == "reply") = true) →
        preSendExecute R rng env rules (some m) =
          .ok ⟨true, true, some "已按规则替换部分消息内容",
               some (removeTextSegments m.segments)⟩)) := by
  have hred := preSendExecute_modified R rng env rules m ft hp hrules hpt heng
  rw [if_pos hempty] at hred
  refine ⟨?_, ?_, ?_, ?_⟩
  · intro hlen
    rw [hred, if_pos hlen]
  · exact List.filter_sublist m.segments
  · intro s
    simp [removeTextSegments, List.mem_filter]
  · intro hlen
    rw [hred, if_neg hlen]
    constructor
    · intro hcond
      rw [if_pos hcond]
    · intro hcond
      rw [if_neg hcond]

/-- Witness for C4 at a concrete input: the dot-only text segment empties,
text segments are removed, the remaining lone reply segment is not sendable,
and the send is cancelled. -/
theorem C4_empty_text_reconciliation_witness :
    preSendExecute listEngine zeroRng defaultEnv c4rules (some c4msg) =
      .ok ⟨true, false, some "消息内容为空，已取消发送。", none⟩ :=
  ((C4_empty_text_reconciliation listEngine zeroRng defaultEnv c4rules c4msg "" none
      (by decide) (by decide) rfl rfl).2.2.2 (by decide)).1 (Or.inr rfl)

/-- C5: on the modified, unblocked pre-send path whose final text strips to
non-empty and whose segment list has two or more elements, the handler
sends the reconciled list: the first text segment is overwritten with the
new text, every later text segment is deleted, the non-text subsequence is
unchanged, and at most one text segment remains. -/
theorem C5_nonempty_text_reconciliation (R : RegexEngine) (rng : ℕ → ℚ) (env : LLMEnv)
    (rules : List Rule) (m : PreMsg) (ft : String) (hp : Option String)
    (hrules : rules ≠ []) (hpt : m.plainText ≠ "")
    (heng : applyFilterRulesToText R rng env rules (textConcat m.segments) m.streamId none =
      .ok (false, true, ft, hp))
    (hne : pyStrip ft ≠ "") (hlen : m.segments.length ≠ 1) :
    preSendExecute R rng env rules (some m) =
      .ok ⟨true, true, some "已按规则替换部分内容",
           some (replaceFirstTextSegment m.segments ft)⟩ ∧
    (replaceFirstTextSegment m.segments ft).filter (fun s => s.type != "text") =
      m.segments.filter (fun s => s.type != "text") ∧
    ((replaceFirstTextSegment m.segments ft).filter (fun s => s.type == "text")).length ≤ 1 ∧
    (∀ (pre : List Seg) (s : Seg) (post : List Seg),
      m.segments = pre ++ s :: post → s.type = "text" → (∀ x ∈ pre, x.type ≠ "text") →
      replaceFirstTextSegment m.segments ft =
        pre ++ { s with data := ft } :: removeTextSegments post) := by
  have hred := preSendExecute_modified R rng env rules m ft hp hrules hpt heng
  rw [if_neg hne] at hred
  refine ⟨?_, ?_, ?_, ?_⟩
  · rw [hred, if_neg hlen]
  · exact replaceFirstTextSegmentAux_filter_nontext ft m.segments false
  · exact replaceFirstTextSegment_text_count m.segments ft
  · intro pre s post hsplit hs hpre
    rw [hsplit]
    exact replaceFirstTextSegment_split ft pre s post hpre hs

/-- Witness for C5 at a concrete input: `[Text a, Image, Text b]` with new
text `aX` becomes `[Text aX, Image]` — first text overwritten, second text
deleted, image preserved in position. -/
theorem C5_nonempty_text_reconciliation_witness :
    preSendExecute listEngine zeroRng defaultEnv c5rules (some c5msg) =
      .ok ⟨true, true, some "已按规则替换部分内容",
           some [⟨"text", "aX"⟩, ⟨"image", "I"⟩]⟩ :=
  (C5_nonempty_text_reconciliation listEngine zeroRng defaultEnv c5rules c5msg "aX" none
      (by decide) (by decide) rfl (by decide) (by decide)).1
